import Mathlib

/-!
Verification development for the WasiCycles stateful Kafka consumer test
server (src/wasmer/src/main.py).

The Python program is embedded shallowly: the mutable fields of
PersistentKafkaConsumer become a ConsumerState record, each method becomes
a pure state-passing function, and every outbound HTTP call receives its
outcome from an explicit environment record (the upstream REST proxy is an
opaque external system).  JSON values produced by json.loads are modelled
by the inductive type JsonVal; numbers are modelled as integers (no float
appears in any control-flow decision of the program).  Exceptions are
modelled with Except/Option: a Python raise that the program catches is an
error value routed to the matching handler.
-/

/-- A JSON value as returned by json.loads.  Object fields keep insertion
order and hold no duplicate keys, matching the Python dict that json.loads
builds (a later duplicate key overwrites the earlier one in place). -/
inductive JsonVal : Type where
  | null : JsonVal
  | bool (b : Bool) : JsonVal
  | num (n : Int) : JsonVal
  | str (s : String) : JsonVal
  | arr (elems : List JsonVal) : JsonVal
  | obj (fields : List (String × JsonVal)) : JsonVal
deriving Inhabited

/-- The opening-brace character, written by code point. -/
def lbraceChar : Char := Char.ofNat 123

/-- The closing-brace character, written by code point. -/
def rbraceChar : Char := Char.ofNat 125

/-- JSON whitespace. -/
def isWsChar (c : Char) : Bool :=
  c = ' ' || c = '\t' || c = '\n' || c = '\r'

/-- Drop leading JSON whitespace. -/
def skipWs (cs : List Char) : List Char := cs.dropWhile isWsChar

/-- Parse the body of a JSON string literal (the opening quote already
consumed), handling the single-character escapes.  Returns the decoded
characters and the remaining input. -/
def parseStrChars : List Char → Option (List Char × List Char)
  | [] => none
  | c :: rest =>
    if c = '"' then some ([], rest)
    else if c = '\\' then
      match rest with
      | [] => none
      | e :: rest2 =>
        let ec : Option Char :=
          if e = '"' then some '"'
          else if e = '\\' then some '\\'
          else if e = '/' then some '/'
          else if e = 'n' then some '\n'
          else if e = 't' then some '\t'
          else if e = 'r' then some '\r'
          else none
        match ec with
        | none => none
        | some d =>
          match parseStrChars rest2 with
          | none => none
          | some (ds, rem) => some (d :: ds, rem)
    else
      match parseStrChars rest with
      | none => none
      | some (ds, rem) => some (c :: ds, rem)

/-- Decimal digits to a natural number. -/
def digitsToNat (ds : List Char) : Nat :=
  ds.foldl (fun a c => a * 10 + (c.toNat - 48)) 0

/-- Parse a JSON integer (the program never branches on floats, so the
model supports integer literals only). -/
def parseNumber (cs : List Char) : Option (Int × List Char) :=
  match cs with
  | '-' :: rest =>
    let ds := rest.takeWhile Char.isDigit
    if ds.isEmpty then none
    else some (-(digitsToNat ds : Int), rest.dropWhile Char.isDigit)
  | _ =>
    let ds := cs.takeWhile Char.isDigit
    if ds.isEmpty then none
    else some ((digitsToNat ds : Int), cs.dropWhile Char.isDigit)

/-- Insert a key into an object under construction with Python dict
semantics: a repeated key overwrites in place, a new key appends. -/
def insertField (fs : List (String × JsonVal)) (k : String) (v : JsonVal) :
    List (String × JsonVal) :=
  if fs.any (fun p => p.1 = k) then
    fs.map (fun p => if p.1 = k then (k, v) else p)
  else fs ++ [(k, v)]

mutual

/-- Fuel-indexed JSON value parser. -/
def parseVal : Nat → List Char → Option (JsonVal × List Char)
  | 0, _ => none
  | Nat.succ fuel, cs =>
    match skipWs cs with
    | [] => none
    | c :: rest =>
      if c = 'n' then
        match rest with
        | 'u' :: 'l' :: 'l' :: r => some (.null, r)
        | _ => none
      else if c = 't' then
        match rest with
        | 'r' :: 'u' :: 'e' :: r => some (.bool true, r)
        | _ => none
      else if c = 'f' then
        match rest with
        | 'a' :: 'l' :: 's' :: 'e' :: r => some (.bool false, r)
        | _ => none
      else if c = '"' then
        match parseStrChars rest with
        | some (ds, rem) => some (.str (String.mk ds), rem)
        | none => none
      else if c = '[' then
        match skipWs rest with
        | [] => none
        | d :: r2 =>
          if d = ']' then some (.arr [], r2)
          else
            match parseElems fuel (d :: r2) with
            | some (xs, rem) => some (.arr xs, rem)
            | none => none
      else if c = lbraceChar then
        match skipWs rest with
        | [] => none
        | d :: r2 =>
          if d = rbraceChar then some (.obj [], r2)
          else
            match parseFields fuel (d :: r2) [] with
            | some (fs, rem) => some (.obj fs, rem)
            | none => none
      else
        match parseNumber (c :: rest) with
        | some (n, rem) => some (.num n, rem)
        | none => none

/-- Elements of a JSON array after the opening bracket (nonempty case). -/
def parseElems : Nat → List Char → Option (List JsonVal × List Char)
  | 0, _ => none
  | Nat.succ fuel, cs =>
    match parseVal fuel cs with
    | none => none
    | some (v, rem) =>
      match skipWs rem with
      | [] => none
      | d :: r2 =>
        if d = ',' then
          match parseElems fuel r2 with
          | some (xs, rem2) => some (v :: xs, rem2)
          | none => none
        else if d = ']' then some ([v], r2)
        else none

/-- Fields of a JSON object after the opening brace (nonempty case). -/
def parseFields : Nat → List Char →
    List (String × JsonVal) → Option (List (String × JsonVal) × List Char)
  | 0, _, _ => none
  | Nat.succ fuel, cs, acc =>
    match skipWs cs with
    | [] => none
    | c :: rest =>
      if c = '"' then
        match parseStrChars rest with
        | none => none
        | some (ks, rem) =>
          match skipWs rem with
          | [] => none
          | d :: r2 =>
            if d = ':' then
              match parseVal fuel r2 with
              | none => none
              | some (v, rem2) =>
                let acc2 := insertField acc (String.mk ks) v
                match skipWs rem2 with
                | [] => none
                | e :: r3 =>
                  if e = ',' then
                    match parseFields fuel r3 acc2 with
                    | some (fs, rem3) => some (fs, rem3)
                    | none => none
                  else if e = rbraceChar then some (acc2, r3)
                  else none
            else none
      else none

end

/-- Model of json.loads: parse one JSON value and require that only
whitespace remains; a parse failure models the ValueError the library
raises. -/
def json_loads (s : String) : Option JsonVal :=
  match parseVal (s.length + 1) s.data with
  | some (v, rem) => if skipWs rem = [] then some v else none
  | none => none

/-- Substring test, modelling the Python `in` operator on strings. -/
def strContains (hay needle : String) : Bool :=
  (List.range (hay.data.length + 1)).any
    (fun i => needle.data.isPrefixOf (hay.data.drop i))

/-- Python str.startswith, at the character-list level. -/
def startsWithStr (s pre : String) : Bool := pre.data.isPrefixOf s.data

/-- ASCII lowercasing at the character-list level (Python str.lower on the
ASCII texts the program compares). -/
def lowerString (s : String) : String :=
  String.mk (s.data.map Char.toLower)

/-- Python str.strip(): drop leading and trailing whitespace (list-level,
so that it evaluates by reduction). -/
def pyStrip (s : String) : String :=
  String.mk (((s.data.dropWhile Char.isWhitespace).reverse.dropWhile
    Char.isWhitespace).reverse)

/-- Python truthiness of a JSON value (bool(x) for the values json.loads
can return). -/
def truthy : JsonVal → Bool
  | .null => false
  | .bool b => b
  | .num n => n != 0
  | .str s => !s.isEmpty
  | .arr xs => !xs.isEmpty
  | .obj fs => !fs.isEmpty

/-- Python `k in x` for a string key k: key lookup on a dict, membership on
a list, substring test on a string, and TypeError (modelled as an error)
on the other JSON values. -/
def pyContainsKey (k : String) : JsonVal → Except Unit Bool
  | .obj fs => .ok (fs.any (fun p => p.1 == k))
  | .arr xs => .ok (xs.any (fun v => match v with | .str s => s == k | _ => false))
  | .str s => .ok (strContains s k)
  | _ => .error ()

/-- Python `x[k]` for a string key k: dict lookup (KeyError when absent);
TypeError on every other JSON value. -/
def pyIndexKey (k : String) : JsonVal → Except Unit JsonVal
  | .obj fs =>
    match fs.find? (fun p => p.1 == k) with
    | some p => .ok p.2
    | none => .error ()
  | _ => .error ()

/-- Lookup in an object field list with a default, modelling dict.get. -/
def jget (fs : List (String × JsonVal)) (k : String) (d : JsonVal) : JsonVal :=
  match fs.find? (fun p => p.1 == k) with
  | some p => p.2
  | none => d

/-- Python `x.get(k, d)`: works on a dict, AttributeError (modelled as an
error) on every other JSON value. -/
def pyGetD (v : JsonVal) (k : String) (d : JsonVal) : Except Unit JsonVal :=
  match v with
  | .obj fs => .ok (jget fs k d)
  | _ => .error ()

/-- Python iteration `for x in v`: elements of a list, keys of a dict,
one-character strings of a string, TypeError otherwise. -/
def pyIter : JsonVal → Except Unit (List JsonVal)
  | .arr xs => .ok xs
  | .obj fs => .ok (fs.map (fun p => JsonVal.str p.1))
  | .str s => .ok (s.data.map (fun c => JsonVal.str (String.singleton c)))
  | _ => .error ()

/-- Whether a JSON value is an object (a Python dict). -/
def JsonVal.isObj : JsonVal → Bool
  | .obj _ => true
  | _ => false

/-- Outcome of one outbound HTTP call as the program can observe it:
a successful response with its body text, an urllib.error.HTTPError with
status code and body, or any other exception (URLError, timeout, a failed
read, ...). -/
inductive HttpOutcome : Type where
  | ok (body : String) : HttpOutcome
  | httpError (code : Nat) (body : String) : HttpOutcome
  | exn : HttpOutcome

/-- True when the call did not return a successful response. -/
def HttpOutcome.failed : HttpOutcome → Bool
  | .ok _ => false
  | _ => true

/-- A record the consumer builds from one wire record (the processed_record
dict of poll_messages).  instance_id is the consumer field at that moment
(None before the first successful initialization). -/
structure ProcessedRecord where
  topic : JsonVal
  partition : JsonVal
  offset : JsonVal
  key : JsonVal
  data : JsonVal
  consumed_by : String
  consumed_at : Int
  instance_id : Option JsonVal

/-- The mutable fields of PersistentKafkaConsumer.  instance_id holds
whatever consumer_data.get returned (None initially), so it is an optional
JSON value. -/
structure ConsumerState where
  consumer_group_id : String
  instance_id : Option JsonVal
  consumed_messages : List ProcessedRecord
  max_stored_messages : Nat
  consumer_initialized : Bool
  last_poll_time : Int
  object_id : String

/-- PersistentKafkaConsumer.__init__: the consumer group id is derived from
the topic by dropping underscores and lowercasing; the history is empty,
the bound is 100, the consumer is uninitialized. -/
def mkInitialState (topic objId : String) : ConsumerState :=
  { consumer_group_id :=
      "wasmer_" ++ lowerString (String.mk (topic.data.filter (fun c => c != '_')))
        ++ "_consumer"
    instance_id := none
    consumed_messages := []
    max_stored_messages := 100
    consumer_initialized := false
    last_poll_time := 0
    object_id := objId }

/-- How many of the three setup HTTP calls initialize_consumer issued
(consumer-group creation, consumer-instance creation, subscription). -/
structure InitCalls where
  groupCalls : Nat
  instanceCalls : Nat
  subscribeCalls : Nat
deriving Repr, DecidableEq

/-- Environment for initialize_consumer: the outcome of each of its three
outbound calls, should the call be issued. -/
structure InitEnv where
  groupResp : HttpOutcome
  instanceResp : HttpOutcome
  subscribeResp : HttpOutcome

/-- Whether the Python slice x[:20] works on a value (strings and lists
slice; other values raise TypeError). -/
def sliceableVal : JsonVal → Bool
  | .str _ => true
  | .arr _ => true
  | _ => false

/-- The 400-with-already-exists test of the group-creation handler. -/
def hasAlreadyExists (body : String) : Bool :=
  strContains (lowerString body) "already exists"

/-- PersistentKafkaConsumer.initialize_consumer.  Returns the Python return
value, the state after the call, and the setup calls issued.

Control flow of the source: an already-initialized consumer returns True at
once.  The group-creation call only distinguishes HTTPError (all codes,
already-exists or not, are logged and execution continues) from any other
exception (which escapes to the outer handler: return False).  The
instance-creation call has no local handler, so any failure there returns
False; its body is parsed and consumer_data.get("instance_id",
"unknown_instance") is stored (a .get on a non-dict raises: return False;
storing a value that the debug print cannot slice raises after the
assignment: return False with instance_id already overwritten).  The
subscription call tolerates HTTPError and continues; other exceptions
return False.  On success consumer_initialized is set and True returned. -/
def initialize_consumer (env : InitEnv) (s : ConsumerState) :
    Bool × ConsumerState × InitCalls :=
  if s.consumer_initialized then (true, s, ⟨0, 0, 0⟩)
  else
    match env.groupResp with
    | .exn => (false, s, ⟨1, 0, 0⟩)
    | _ =>
      match env.instanceResp with
      | .ok body =>
        match json_loads body with
        | none => (false, s, ⟨1, 1, 0⟩)
        | some v =>
          match v with
          | .obj fs =>
            let iv := jget fs "instance_id" (.str "unknown_instance")
            let s1 := { s with instance_id := some iv }
            if sliceableVal iv then
              match env.subscribeResp with
              | .exn => (false, s1, ⟨1, 1, 1⟩)
              | _ => (true, { s1 with consumer_initialized := true }, ⟨1, 1, 1⟩)
            else (false, s1, ⟨1, 1, 0⟩)
          | _ => (false, s, ⟨1, 1, 0⟩)
      | _ => (false, s, ⟨1, 1, 0⟩)

/-- What poll_messages did: how often initialize_consumer was entered, the
setup calls it issued, whether the records fetch was issued, and whether a
TypeError aborted the record loop (skipping the history trim). -/
structure PollTrace where
  initAttempts : Nat
  initCalls : InitCalls
  fetches : Nat
  loopAborted : Bool
deriving Repr, DecidableEq

/-- Environment for poll_messages: the initialization environment (used
only when the consumer is not yet initialized), the outcome of the records
fetch, and the current time. -/
structure PollEnv where
  init : InitEnv
  fetch : HttpOutcome
  now : Int

/-- The inner-try decoding of a wire value: a string value goes through
json.loads (none models the caught parse exception), any other value is
used directly. -/
def decodeValue (v : JsonVal) : Option JsonVal :=
  match v with
  | .str sv => json_loads sv
  | _ => some v

/-- The processed_record dict built from one wire record and its decoded
value (the non-dict fallback is unreachable: the value lookup only
succeeds on a dict). -/
def mkProcessedRecord (topic : String) (inst : Option JsonVal) (now : Int)
    (record : JsonVal) (value_data : JsonVal) : ProcessedRecord :=
  match record with
  | .obj fs =>
    { topic := jget fs "topic" (.str topic)
      partition := jget fs "partition" (.num 0)
      offset := jget fs "offset" (.str "unknown")
      key := jget fs "key" (.str "")
      data := value_data
      consumed_by := "persistent_consumer"
      consumed_at := now
      instance_id := inst }
  | _ =>
    { topic := .str topic, partition := .num 0
      offset := .str "unknown", key := .str ""
      data := value_data, consumed_by := "persistent_consumer"
      consumed_at := now, instance_id := inst }

/-- One record of the for-loop of poll_messages, as an Option: some when
the record is appended, none when it is skipped.  Mirrors exactly the
checks the loop performs on a dict record: the "value" membership test,
the string/non-string split, json.loads on a string value, and the
defaulted .get projections of the processed_record dict. -/
def processedOf (topic : String) (inst : Option JsonVal) (now : Int)
    (record : JsonVal) : Option ProcessedRecord :=
  match pyContainsKey "value" record with
  | .error _ => none
  | .ok false => none
  | .ok true =>
    match pyIndexKey "value" record with
    | .error _ => none
    | .ok v =>
      if truthy v then
        match decodeValue v with
        | none => none
        | some value_data =>
          some (mkProcessedRecord topic inst now record value_data)
      else none

/-- The record loop of poll_messages.  For each record, the membership
test and the value lookup run outside the inner try, so a TypeError there
(non-dict record, or a list/string that passes the membership test)
propagates to the outer handler: the loop stops with the appends already
made kept (third component true).  Inside the inner try a failing
json.loads on a string value only skips that record.  Appends go to both
the new-message list and the stored history. -/
def processRecords (topic : String) (inst : Option JsonVal) (now : Int) :
    List JsonVal → List ProcessedRecord → List ProcessedRecord →
    List ProcessedRecord × List ProcessedRecord × Bool
  | [], newMsgs, consumed => (newMsgs, consumed, false)
  | record :: rest, newMsgs, consumed =>
    match pyContainsKey "value" record with
    | .error _ => (newMsgs, consumed, true)
    | .ok false => processRecords topic inst now rest newMsgs consumed
    | .ok true =>
      match pyIndexKey "value" record with
      | .error _ => (newMsgs, consumed, true)
      | .ok v =>
        if truthy v then
          match decodeValue v with
          | none => processRecords topic inst now rest newMsgs consumed
          | some value_data =>
            let pr := mkProcessedRecord topic inst now record value_data
            processRecords topic inst now rest (newMsgs ++ [pr]) (consumed ++ [pr])
        else processRecords topic inst now rest newMsgs consumed

/-- The body of poll_messages after the initialization step, on state s
with trace tr.  Mirrors the source: a failed fetch returns [] (history and
last_poll_time untouched); on a response the body is read and
last_poll_time set; an empty or "[]" body returns []; json.loads failure
returns []; the record loop runs with its abort semantics; the history is
trimmed to the last max_stored_messages entries only when the loop
completed; the summary print loop then raises AttributeError when some new
message has a non-dict data value, turning the return value into [] while
the (already trimmed) history keeps the records. -/
def poll_fetch (env : PollEnv) (topic : String) (s : ConsumerState)
    (tr : PollTrace) : List ProcessedRecord × ConsumerState × PollTrace :=
  match env.fetch with
  | .ok body =>
    let tr1 : PollTrace := { tr with fetches := 1 }
    let s1 : ConsumerState := { s with last_poll_time := env.now }
    if (pyStrip body != "") && (body != "[]") then
      match json_loads body with
      | none => ([], s1, tr1)
      | some v =>
        match pyIter v with
        | .error _ => ([], s1, { tr1 with loopAborted := true })
        | .ok elems =>
          match processRecords topic s1.instance_id env.now elems []
              s1.consumed_messages with
          | (newMsgs, consumed, aborted) =>
            if aborted then
              ([], { s1 with consumed_messages := consumed },
               { tr1 with loopAborted := true })
            else
              let consumed2 :=
                if consumed.length > s1.max_stored_messages then
                  consumed.drop (consumed.length - s1.max_stored_messages)
                else consumed
              let s2 := { s1 with consumed_messages := consumed2 }
              if newMsgs.all (fun m => m.data.isObj) then (newMsgs, s2, tr1)
              else ([], s2, tr1)
    else ([], s1, tr1)
  | _ => ([], s, { tr with fetches := 1 })

/-- PersistentKafkaConsumer.poll_messages.  If the consumer is not
initialized, initialize_consumer runs first and a failure there returns []
without fetching; otherwise (or on success) one records fetch is made and
handled by poll_fetch. -/
def poll_messages (topic : String) (env : PollEnv) (s : ConsumerState) :
    List ProcessedRecord × ConsumerState × PollTrace :=
  if s.consumer_initialized then
    poll_fetch env topic s
      { initAttempts := 0, initCalls := ⟨0, 0, 0⟩, fetches := 0
        loopAborted := false }
  else
    match initialize_consumer env.init s with
    | (ok, s1, calls) =>
      let tr : PollTrace :=
        { initAttempts := 1, initCalls := calls, fetches := 0
          loopAborted := false }
      if ok then poll_fetch env topic s1 tr else ([], s1, tr)

/-- The status dict returned by PersistentKafkaConsumer.get_status. -/
structure StatusInfo where
  object_id : String
  consumer_group_id : String
  instance_id : Option JsonVal
  initialized : Bool
  total_consumed : Nat
  last_poll : Int

/-- PersistentKafkaConsumer.get_status: builds the status dict from the
current fields and performs no assignment, so the state passes through
unchanged. -/
def get_status (s : ConsumerState) : StatusInfo × ConsumerState :=
  ({ object_id := s.object_id
     consumer_group_id := s.consumer_group_id
     instance_id := s.instance_id
     initialized := s.consumer_initialized
     total_consumed := s.consumed_messages.length
     last_poll := s.last_poll_time }, s)

/-- Environment-derived configuration of the server process. -/
structure Config where
  oracleHost : String
  dbName : String
  topic : String
  portIs8070 : Bool
  wasmerRuntimeSet : Bool

/-- Environment for one do_GET call: outcomes for each outbound call a
branch may make, and the current time (seconds and milliseconds kept as
separate observations of the clock). -/
structure GetEnv where
  sendResp : HttpOutcome
  poll : PollEnv
  initEnv : InitEnv
  plsqlResp : HttpOutcome
  now : Int
  nowMs : Int

/-- Environment for one do_POST call: the request body (none models a
missing or unreadable Content-Length / body, which raises inside the
branch try), and the outcome of the outbound publish call of each
branch. -/
structure PostEnv where
  body : Option String
  publishResp : HttpOutcome
  plsqlPubResp : HttpOutcome
  now : Int

/-- Python str(x) as used inside f-strings of the POST branches.  The
program never branches on this text; container reprs are abbreviated. -/
def pyFStr : JsonVal → String
  | .str s => s
  | .num n => toString n
  | .bool b => if b then "True" else "False"
  | .null => "None"
  | .arr _ => "[...]"
  | .obj _ => "\x7b...\x7d"

/-- Python len(x): strings, lists and dicts are sized, everything else
raises TypeError. -/
def pyLen : JsonVal → Except Unit Nat
  | .str s => .ok s.length
  | .arr xs => .ok xs.length
  | .obj fs => .ok fs.length
  | _ => .error ()

/-- Python x[0]: first element of a list, first character of a string;
KeyError on a dict (json.loads never produces an integer key) and
TypeError otherwise. -/
def pyIndexZero : JsonVal → Except Unit JsonVal
  | .arr (x :: _) => .ok x
  | .arr [] => .error ()
  | .str s =>
    match s.data with
    | c :: _ => .ok (.str (String.singleton c))
    | [] => .error ()
  | _ => .error ()

/-- The last n entries of a list, as the Python slice xs[-n:]. -/
def lastN (n : Nat) (xs : List ProcessedRecord) : List ProcessedRecord :=
  xs.drop (xs.length - n)

/-- JSON form of the get_status dict, as /health, /consume-persistent,
/consumer-status and /initialize-consumer embed it in their responses. -/
def statusJson (s : ConsumerState) : JsonVal :=
  let st := (get_status s).1
  .obj [("object_id", .str st.object_id),
        ("consumer_group_id", .str st.consumer_group_id),
        ("instance_id", st.instance_id.getD .null),
        ("initialized", .bool st.initialized),
        ("total_consumed", .num (st.total_consumed : Int)),
        ("last_poll", .num st.last_poll)]

/-- JSON form of a processed record, as the endpoints serialize it. -/
def processedToJson (p : ProcessedRecord) : JsonVal :=
  .obj [("topic", p.topic), ("partition", p.partition),
        ("offset", p.offset), ("key", p.key), ("data", p.data),
        ("consumed_by", .str p.consumed_by),
        ("consumed_at", .num p.consumed_at),
        ("instance_id", p.instance_id.getD .null)]

/-- Field lookup on a JSON object. -/
def jlookup (v : JsonVal) (k : String) : Option JsonVal :=
  match v with
  | .obj fs => (fs.find? (fun p => p.1 == k)).map Prod.snd
  | _ => none

/-- The ORDS endpoint URL of the direct-PLSQL branch. -/
def plsqlUrl (cfg : Config) : String :=
  "https://" ++ cfg.oracleHost ++ "/ords/admin/wasm-kafka/consume-direct"

/-- The error payload of the /consume-direct-plsql except-branch (the
str(e) suffix of the error text is elided: modelled exceptions carry no
message). -/
def plsqlErrorData (cfg : Config) (now : Int) : JsonVal :=
  .obj [("status", .str "error"),
        ("error", .str "Failed to consume via direct PLSQL"),
        ("runtime", .str "wasmer_direct"),
        ("endpoint", .str "consume_direct_plsql"),
        ("messages", .arr []), ("message_count", .num 0),
        ("ords_url", .str (plsqlUrl cfg)), ("timestamp", .num now)]

/-- The /consume-direct-plsql branch: POST to the ORDS endpoint, unwrap
the \x7b"items":[\x7b"result": ...\x7d]\x7d envelope (falling back to the
raw response), and build the response dict from plsql_data; every raise in
the branch lands in its except handler. -/
def consumeDirectPlsql (cfg : Config) (env : GetEnv) : JsonVal :=
  match env.plsqlResp with
  | .ok body =>
    match json_loads body with
    | none => plsqlErrorData cfg env.now
    | some ords =>
      match pyContainsKey "items" ords with
      | .error _ => plsqlErrorData cfg env.now
      | .ok has =>
        let pd? : Except Unit JsonVal :=
          if has then
            (pyIndexKey "items" ords).bind fun items =>
            (pyLen items).bind fun n =>
            if n > 0 then
              (pyIndexZero items).bind fun item0 =>
              (pyGetD item0 "result" (.str "\x7b\x7d")).bind fun rj =>
              match rj with
              | .str s =>
                match json_loads s with
                | some pd => .ok pd
                | none => .error ()
              | _ => .ok rj
            else .ok ords
          else .ok ords
        match pd? with
        | .error _ => plsqlErrorData cfg env.now
        | .ok pd =>
          match pyGetD pd "status" (.str "success"),
              pyGetD pd "messages" (.arr []), pyGetD pd "count" (.num 0),
              pyGetD pd "consumer_name" (.str "unknown"),
              pyGetD pd "timeout_seconds" (.num 2) with
          | .ok st, .ok ms, .ok ct, .ok cn, .ok ts =>
            .obj [("status", st), ("runtime", .str "wasmer_direct"),
                  ("endpoint", .str "consume_direct_plsql"),
                  ("messages", ms), ("message_count", ct),
                  ("plsql_response", pd), ("ords_response", ords),
                  ("consumer_name", cn), ("timeout_seconds", ts),
                  ("note", .str "Direct WASM to database via ORDS REST + PLSQL procedure"),
                  ("ords_url", .str (plsqlUrl cfg)),
                  ("timestamp", .num env.now)]
          | _, _, _, _, _ => plsqlErrorData cfg env.now
  | _ => plsqlErrorData cfg env.now

/-- Message text extracted from a /send-message/... path: the part after
the last occurrence of the marker, or "default-test" when the marker is
absent. -/
def sendMessagePart (path : String) : String :=
  let parts := path.splitOn "/send-message/"
  if parts.length > 1 then parts.getLastD "" else "default-test"

/-- The synthetic test event of the /send-message branch. -/
def sendTestEvent (m : String) (nowMs : Int) : JsonVal :=
  .obj [("type", .str "test_message"),
        ("player_id", .str ("test-wasmer-" ++ m)),
        ("runtime", .str "wasmer"), ("timestamp", .num nowMs),
        ("test_data", .str m)]

/-- The /send-message branch: publish the test event; a failed publish is
converted into a status:error payload (exception text elided). -/
def sendMessageData (env : GetEnv) (path : String) : JsonVal :=
  let m := sendMessagePart path
  match env.sendResp with
  | .ok result =>
    .obj [("status", .str "success"),
          ("message", .str ("Test message \x27" ++ m ++ "\x27 sent to Oracle TxEventQ successfully")),
          ("runtime", .str "wasmer"), ("castle", .str "Wasmer Forge"),
          ("test_event", sendTestEvent m env.nowMs),
          ("kafka_result", .str result), ("timestamp", .num env.now)]
  | _ =>
    .obj [("status", .str "error"),
          ("message", .str ("Failed to send message \x27" ++ m ++ "\x27 to Oracle TxEventQ")),
          ("runtime", .str "wasmer"), ("castle", .str "Wasmer Forge"),
          ("error", .str "exception"), ("timestamp", .num env.now)]

/-- The fallback directory payload of do_GET for unrecognized paths. -/
def defaultDirectory (cfg : Config) : JsonVal :=
  .obj [("message", .str "🧪 WasiCycles Stateful Kafka Test Server"),
        ("runtime", .str (if cfg.wasmerRuntimeSet then "wasmer" else "python_native")),
        ("endpoints", .obj [("health", .str "/health"),
          ("consume_persistent", .str "/consume-persistent"),
          ("consume_direct_plsql", .str "/consume-direct-plsql"),
          ("consumer_status", .str "/consumer-status"),
          ("initialize_consumer", .str "/initialize-consumer")]),
        ("description", .str "Tests persistent Kafka consumer state across HTTP requests")]

/-- Body and state updates of StatefulKafkaHandler.do_GET, dispatching on
the parsed path exactly in source order. -/
def do_GET_body (cfg : Config) (env : GetEnv) (pc : Option ConsumerState)
    (path : String) : JsonVal × Option ConsumerState :=
  if startsWithStr path "/send-message/" then
    (sendMessageData env path, pc)
  else if path = "/health" then
    (.obj [("status", .str "healthy"),
           ("runtime", .str (if cfg.portIs8070 then "wasmer" else "python_native")),
           ("castle", .str "Wasmer Cycle"),
           ("service", .str "WasiCycles Wasmer Cycle"),
           ("timestamp", .num env.now), ("version", .str "1.0.0"),
           ("consumer_status",
             match pc with
             | some c => statusJson c
             | none => .str "not_initialized")], pc)
  else if path = "/consume-persistent" then
    match pc with
    | none =>
      (.obj [("status", .str "error"),
             ("error", .str "Persistent consumer not initialized")], none)
    | some c =>
      match poll_messages cfg.topic env.poll c with
      | (msgs, c2, _) =>
        (.obj [("status", .str "success"),
               ("runtime", .str (if cfg.wasmerRuntimeSet then "wasmer" else "python_native")),
               ("endpoint", .str "consume_persistent"),
               ("messages", .arr (msgs.map processedToJson)),
               ("message_count", .num (msgs.length : Int)),
               ("consumer_status", statusJson c2),
               ("note", .str "Using persistent consumer - maintains state across requests"),
               ("timestamp", .num env.now)], some c2)
  else if path = "/consumer-status" then
    match pc with
    | none =>
      (.obj [("status", .str "error"),
             ("error", .str "Persistent consumer not initialized")], none)
    | some c =>
      (.obj [("status", .str "success"),
             ("consumer_status", statusJson c),
             ("all_consumed_messages",
               .arr ((lastN 10 c.consumed_messages).map processedToJson)),
             ("timestamp", .num env.now)], some c)
  else if path = "/consume-direct-plsql" then
    (consumeDirectPlsql cfg env, pc)
  else if path = "/initialize-consumer" then
    match pc with
    | none =>
      (.obj [("status", .str "error"),
             ("error", .str "Persistent consumer object not created")], none)
    | some c =>
      match initialize_consumer env.initEnv c with
      | (ok, c2, _) =>
        (.obj [("status", .str (if ok then "success" else "error")),
               ("initialized", .bool ok),
               ("consumer_status", statusJson c2),
               ("timestamp", .num env.now)], some c2)
  else (defaultDirectory cfg, pc)

/-- StatefulKafkaHandler.do_GET: send_response(200) runs before the
dispatch, so the HTTP status is 200 for every path and every environment;
the JSON body and the consumer-state update come from do_GET_body. -/
def do_GET (cfg : Config) (env : GetEnv) (pc : Option ConsumerState)
    (path : String) : Nat × JsonVal × Option ConsumerState :=
  (200, do_GET_body cfg env pc path)

/-- The /test-kafka branch of do_POST: read and parse the request body,
build the test event, publish it; every raise in the branch lands in its
except handler, producing a status:error payload. -/
def testKafkaData (cfg : Config) (env : PostEnv) : JsonVal :=
  let errData : JsonVal :=
    .obj [("status", .str "error"), ("error", .str "exception"),
          ("timestamp", .num env.now)]
  match env.body with
  | none => errData
  | some b =>
    match json_loads b with
    | none => errData
    | some rd =>
      match pyGetD rd "test_message" (.str "stateful_test") with
      | .error _ => errData
      | .ok tm =>
        let ev : JsonVal :=
          .obj [("type", .str "test_message"),
                ("player_id", .str ("test-stateful-" ++ pyFStr tm)),
                ("runtime", .str (if cfg.portIs8070 then "wasmer" else "python_native")),
                ("timestamp", .num env.now), ("test_data", tm)]
        match env.publishResp with
        | .ok _ =>
          .obj [("status", .str "success"), ("test_event", ev),
                ("published_to", .str cfg.topic),
                ("timestamp", .num env.now)]
        | _ => errData

/-- The /test-plsql-enqueue branch of do_POST. -/
def testPlsqlEnqueueData (cfg : Config) (env : PostEnv) : JsonVal :=
  let errData : JsonVal :=
    .obj [("status", .str "error"),
          ("error", .str "PLSQL enqueue failed"),
          ("method", .str "plsql_enqueue"), ("timestamp", .num env.now)]
  match env.body with
  | none => errData
  | some b =>
    match json_loads b with
    | none => errData
    | some rd =>
      match pyGetD rd "test_message" (.str "plsql_enqueue_test") with
      | .error _ => errData
      | .ok tm =>
        let ev : JsonVal :=
          .obj [("type", .str "plsql_enqueue_test"),
                ("player_id", .str ("test-plsql-" ++ pyFStr tm)),
                ("runtime", .str "wasmer_plsql_direct"),
                ("timestamp", .num env.now), ("test_data", tm),
                ("method", .str "plsql_enqueue")]
        match env.plsqlPubResp with
        | .ok rbody =>
          match json_loads rbody with
          | none => errData
          | some pd =>
            match pyGetD pd "status" (.str "unknown") with
            | .error _ => errData
            | .ok st =>
              .obj [("status", st), ("test_event", ev),
                    ("published_to", .str cfg.topic),
                    ("method", .str "plsql_enqueue"),
                    ("plsql_response", pd), ("timestamp", .num env.now)]
        | _ => errData
  
/-- Body of StatefulKafkaHandler.do_POST; the fallback for an unknown POST
path is an error payload naming the path (not an endpoint directory). -/
def do_POST_body (cfg : Config) (env : PostEnv) (path : String) : JsonVal :=
  if path = "/test-kafka" then testKafkaData cfg env
  else if path = "/test-plsql-enqueue" then testPlsqlEnqueueData cfg env
  else
    .obj [("status", .str "error"),
          ("error", .str ("Unknown POST endpoint: " ++ path))]

/-- StatefulKafkaHandler.do_POST: send_response(200) runs before the
dispatch, so the HTTP status is 200 for every path and environment. -/
def do_POST (cfg : Config) (env : PostEnv) (path : String) : Nat × JsonVal :=
  (200, do_POST_body cfg env path)

/-- Recognized do_GET paths (the if/elif chain of the handler). -/
def getRecognized (path : String) : Bool :=
  startsWithStr path "/send-message/" || path = "/health" ||
  path = "/consume-persistent" || path = "/consumer-status" ||
  path = "/consume-direct-plsql" || path = "/initialize-consumer"

/-- Recognized do_POST paths. -/
def postRecognized (path : String) : Bool :=
  path = "/test-kafka" || path = "/test-plsql-enqueue"

/-- The default configuration of the process (the environment defaults of
the source). -/
def cfg0 : Config :=
  { oracleHost := "myhost.adb.region.oraclecloudapps.com"
    dbName := "MYDATABASE", topic := "TEST_KAFKA_TOPIC_NEW"
    portIs8070 := true, wasmerRuntimeSet := true }

/-- The consumer object as created at server start. -/
def s0 : ConsumerState := mkInitialState "TEST_KAFKA_TOPIC_NEW" "obj_1"

/-- An initialized consumer state, as after one successful
initialize_consumer on s0. -/
def s0i : ConsumerState :=
  { s0 with consumer_initialized := true, instance_id := some (.str "inst_1") }

/-- An initialization environment in which all three setup calls
succeed. -/
def envInitOk : InitEnv :=
  { groupResp := .ok ""
    instanceResp := .ok "\x7b\"instance_id\": \"inst_1\"\x7d"
    subscribeResp := .ok "" }

/-- Group creation answers HTTP 500 (no already-exists conflict); the other
setup calls succeed. -/
def envC4 : InitEnv :=
  { envInitOk with groupResp := .httpError 500 "internal server error" }

/-- After initialize_consumer, the initialized flag is the disjunction of
the returned success flag with the previous flag: only a fully successful
run sets it, and it is never cleared. -/
theorem init_initialized_eq (env : InitEnv) (s : ConsumerState) :
    ((initialize_consumer env s).2.1).consumer_initialized =
      ((initialize_consumer env s).1 || s.consumer_initialized) := by
  unfold initialize_consumer
  repeat' split
  all_goals (first | rfl | simp_all [apply_ite])

/-- An already-initialized consumer returns True at once from
initialize_consumer, with no state change and no setup call. -/
theorem initialize_consumer_initialized (env : InitEnv) (s : ConsumerState)
    (hs : s.consumer_initialized = true) :
    initialize_consumer env s = (true, s, ⟨0, 0, 0⟩) := by
  unfold initialize_consumer
  simp [hs]

/-- C9: get_status is read-only: for every consumer state it returns the
status record built from the current field values (object id, group id,
instance id, initialized flag, stored-message count, last poll time) and
returns the state itself unchanged. -/
theorem c9_get_status_readonly (s : ConsumerState) :
    get_status s =
      ({ object_id := s.object_id
         consumer_group_id := s.consumer_group_id
         instance_id := s.instance_id
         initialized := s.consumer_initialized
         total_consumed := s.consumed_messages.length
         last_poll := s.last_poll_time }, s) := rfl

/-- C3: initialize_consumer is idempotent: after a call that returned
True, a second call (under any environment) returns True at once, leaves
the state unchanged, and issues none of the three setup calls. -/
theorem c3_initialize_idempotent (env1 env2 : InitEnv) (s : ConsumerState)
    (h : (initialize_consumer env1 s).1 = true) :
    initialize_consumer env2 (initialize_consumer env1 s).2.1 =
      (true, (initialize_consumer env1 s).2.1, ⟨0, 0, 0⟩) := by
  have hinit : ((initialize_consumer env1 s).2.1).consumer_initialized = true := by
    rw [init_initialized_eq, h, Bool.true_or]
  exact initialize_consumer_initialized env2 _ hinit

/-- C3 witness: on the fresh consumer with an all-successful environment
the first call returns True and the second call is a no-op success. -/
theorem c3_witness :
    initialize_consumer envInitOk (initialize_consumer envInitOk s0).2.1 =
      (true, (initialize_consumer envInitOk s0).2.1, ⟨0, 0, 0⟩) :=
  c3_initialize_idempotent envInitOk envInitOk s0 rfl

/-- C4 counterexample: group creation answers HTTP 500 with a body that
contains no already-exists text, which is not a benign conflict; the claim
says such a failure surfaces as overall failure (False), but
initialize_consumer continues with instance creation and returns True. -/
theorem c4_counterexample :
    (initialize_consumer envC4 s0).1 = true ∧
    hasAlreadyExists "internal server error" = false := ⟨rfl, rfl⟩

/-- C4 amended: already-exists conflicts (HTTP 400 with already-exists
text, or 409) from group creation are treated as benign; in fact every
HTTPError from group creation behaves like a success there, and every
HTTPError from subscription is tolerated as well.  Overall failure (False,
without retry: no setup call is ever issued twice) arises exactly from a
non-HTTP exception during group creation, from any failure of the
instance-creation call, or from a non-HTTP exception during
subscription. -/
theorem c4_amended (env : InitEnv) (s : ConsumerState)
    (hs : s.consumer_initialized = false) :
    (∀ code body,
      initialize_consumer { env with groupResp := .httpError code body } s =
        initialize_consumer { env with groupResp := .ok "" } s)
    ∧ initialize_consumer { env with groupResp := .exn } s =
        (false, s, ⟨1, 0, 0⟩)
    ∧ (env.groupResp ≠ HttpOutcome.exn → ∀ code body,
        initialize_consumer { env with instanceResp := .httpError code body } s =
          (false, s, ⟨1, 1, 0⟩))
    ∧ (env.groupResp ≠ HttpOutcome.exn →
        initialize_consumer { env with instanceResp := .exn } s =
          (false, s, ⟨1, 1, 0⟩))
    ∧ (∀ code body,
      initialize_consumer { env with subscribeResp := .httpError code body } s =
        initialize_consumer { env with subscribeResp := .ok "" } s)
    ∧ ((initialize_consumer env s).2.2).groupCalls ≤ 1
    ∧ ((initialize_consumer env s).2.2).instanceCalls ≤ 1
    ∧ ((initialize_consumer env s).2.2).subscribeCalls ≤ 1 := by
  refine ⟨?_, ?_, ?_, ?_, ?_, ?_, ?_, ?_⟩
  · intro code body
    unfold initialize_consumer
    simp only [hs, Bool.false_eq_true, if_false]
  · unfold initialize_consumer
    simp only [hs, Bool.false_eq_true, if_false]
  · intro hg code body
    unfold initialize_consumer
    cases henv : env.groupResp <;>
      simp_all [hs, Bool.false_eq_true, if_false]
  · intro hg
    unfold initialize_consumer
    cases henv : env.groupResp <;>
      simp_all [hs, Bool.false_eq_true, if_false]
  · intro code body
    unfold initialize_consumer
    simp only [hs, Bool.false_eq_true, if_false]
  · unfold initialize_consumer
    repeat' split
    all_goals try simp
    all_goals (split_ifs <;> simp)
  · unfold initialize_consumer
    repeat' split
    all_goals try simp
    all_goals (split_ifs <;> simp)
  · unfold initialize_consumer
    repeat' split
    all_goals try simp
    all_goals (split_ifs <;> simp)

/-- C4 amended witness: on the fresh consumer, a non-HTTP exception during
group creation returns False with only the group call issued. -/
theorem c4_amended_witness :
    initialize_consumer { envInitOk with groupResp := .exn } s0 =
      (false, s0, ⟨1, 0, 0⟩) :=
  (c4_amended envInitOk s0 rfl).2.1

/-- poll_fetch always issues exactly one records fetch and never touches
the initialization counters of the trace. -/
theorem poll_fetch_trace (env : PollEnv) (topic : String) (s : ConsumerState)
    (tr : PollTrace) :
    ((poll_fetch env topic s tr).2.2).initAttempts = tr.initAttempts ∧
    ((poll_fetch env topic s tr).2.2).initCalls = tr.initCalls ∧
    ((poll_fetch env topic s tr).2.2).fetches = 1 := by
  unfold poll_fetch
  repeat' split
  all_goals try simp
  all_goals (split_ifs <;> simp)

/-- C5: a poll_messages call on an uninitialized consumer enters
initialize_consumer exactly once; on an initialized consumer it enters it
not at all and proceeds directly to the records fetch. -/
theorem c5_poll_initializes_once (topic : String) (env : PollEnv)
    (s : ConsumerState) :
    ((poll_messages topic env s).2.2).initAttempts =
      (if s.consumer_initialized then 0 else 1) ∧
    (s.consumer_initialized = true →
      ((poll_messages topic env s).2.2).fetches = 1) := by
  unfold poll_messages
  by_cases hs : s.consumer_initialized
  · simp only [hs, if_true, if_pos]
    exact ⟨(poll_fetch_trace env topic s _).1, fun _ => (poll_fetch_trace env topic s _).2.2⟩
  · have hs' : s.consumer_initialized = false := by simpa using hs
    simp only [hs', Bool.false_eq_true, if_false]
    rcases hinit : initialize_consumer env.init s with ⟨ok, s1, calls⟩
    cases ok <;>
      simp [poll_fetch_trace, (poll_fetch_trace env topic s1 _).1]

/-- C5 witness: on the initialized state the trace shows no initialization
attempt and one fetch. -/
theorem c5_witness :
    ((poll_messages "TEST_KAFKA_TOPIC_NEW" ⟨envInitOk, .ok "[]", 3⟩ s0i).2.2).fetches = 1 :=
  (c5_poll_initializes_once "TEST_KAFKA_TOPIC_NEW" ⟨envInitOk, .ok "[]", 3⟩ s0i).2 rfl

/-- C6: when the records fetch of a poll on an initialized consumer
returns a body that is empty after stripping, or the literal text "[]",
poll_messages returns the empty message list and the stored history is
unchanged (only last_poll_time moves). -/
theorem c6_empty_poll (topic : String) (env : PollEnv) (s : ConsumerState)
    (body : String) (hs : s.consumer_initialized = true)
    (hf : env.fetch = .ok body) (he : pyStrip body = "" ∨ body = "[]") :
    (poll_messages topic env s).1 = [] ∧
    ((poll_messages topic env s).2.1).consumed_messages =
      s.consumed_messages := by
  have hcond : ((pyStrip body != "") && (body != "[]")) = false := by
    rcases he with he | he <;> simp [he]
  unfold poll_messages poll_fetch
  simp [hs, hf, hcond]

/-- C6 witness: the empty body on the initialized fresh state yields no
messages and an unchanged (empty) history. -/
theorem c6_witness :
    (poll_messages "TEST_KAFKA_TOPIC_NEW" ⟨envInitOk, .ok "", 3⟩ s0i).1 = [] ∧
    ((poll_messages "TEST_KAFKA_TOPIC_NEW" ⟨envInitOk, .ok "", 3⟩ s0i).2.1).consumed_messages =
      s0i.consumed_messages :=
  c6_empty_poll "TEST_KAFKA_TOPIC_NEW" ⟨envInitOk, .ok "", 3⟩ s0i "" rfl rfl (Or.inl rfl)

/-- A poll body of 101 records with value 1 followed by a bare number: the
number is not a dict, so the membership test raises TypeError on it. -/
def c1Body : String :=
  "[" ++ String.join (List.replicate 101 "\x7b\"value\":1\x7d,") ++ "5]"

/-- Poll environment delivering c1Body on the records fetch. -/
def envC1 : PollEnv := { init := envInitOk, fetch := .ok c1Body, now := 1000 }


/-- filterMap of a constant-some function over replicate. -/
theorem filterMap_replicate_some {α β : Type} (f : α → Option β) (a : α)
    (b : β) (hfa : f a = some b) :
    ∀ n, List.filterMap f (List.replicate n a) = List.replicate n b := by
  intro n
  induction n with
  | zero => simp
  | succ n ih => simp [List.replicate_succ, List.filterMap_cons, hfa, ih]

/-- Running the record loop over a prefix of object records never aborts:
it appends exactly the processedOf images of the prefix to both
accumulators and continues with the remaining records. -/
theorem processRecords_obj_front (topic : String) (inst : Option JsonVal)
    (now : Int) :
    ∀ (xs ys : List JsonVal) (newMsgs consumed : List ProcessedRecord),
      (∀ e ∈ xs, e.isObj = true) →
      processRecords topic inst now (xs ++ ys) newMsgs consumed =
        processRecords topic inst now ys
          (newMsgs ++ xs.filterMap (processedOf topic inst now))
          (consumed ++ xs.filterMap (processedOf topic inst now)) := by
  intro xs
  induction xs with
  | nil => intro ys n c _; simp
  | cons e rest ih =>
    intro ys n c h
    have he : e.isObj = true := h e (List.mem_cons_self _ _)
    have hrest : ∀ x ∈ rest, x.isObj = true :=
      fun x hx => h x (List.mem_cons_of_mem _ hx)
    rcases e with _ | b | m | s | xs2 | fs
    · simp [JsonVal.isObj] at he
    · simp [JsonVal.isObj] at he
    · simp [JsonVal.isObj] at he
    · simp [JsonVal.isObj] at he
    · simp [JsonVal.isObj] at he
    · simp only [List.cons_append, processRecords, pyContainsKey,
        processedOf, List.filterMap_cons]
      cases hany : fs.any (fun p => p.1 == "value") with
      | false => simp [ih _ _ _ hrest]
      | true =>
        have hsome : (fs.find? (fun p => p.1 == "value")).isSome := by
          rw [List.find?_isSome]
          obtain ⟨p, hp, hpv⟩ := List.any_eq_true.mp hany
          exact ⟨p, hp, hpv⟩
        obtain ⟨p, hp⟩ := Option.isSome_iff_exists.mp hsome
        simp only [pyIndexKey, hp]
        by_cases ht : truthy p.2
        · cases hd : decodeValue p.2 with
          | none => simp [ht, hd, ih _ _ _ hrest]
          | some vd => simp [ht, hd, ih _ _ _ hrest, List.append_assoc]
        · simp [ht, ih _ _ _ hrest]

/-- The record loop over a list of object records: no abort, both
accumulators extended by the processedOf images. -/
theorem processRecords_obj (topic : String) (inst : Option JsonVal)
    (now : Int) (xs : List JsonVal) (newMsgs consumed : List ProcessedRecord)
    (h : ∀ e ∈ xs, e.isObj = true) :
    processRecords topic inst now xs newMsgs consumed =
      (newMsgs ++ xs.filterMap (processedOf topic inst now),
       consumed ++ xs.filterMap (processedOf topic inst now), false) := by
  have := processRecords_obj_front topic inst now xs [] newMsgs consumed h
  simpa [processRecords] using this

/-- The wire record \x7b"value": 1\x7d. -/
def recJ1 : JsonVal := .obj [("value", .num 1)]

/-- Its processed form in the c1 run. -/
def pr1 : ProcessedRecord :=
  mkProcessedRecord "TEST_KAFKA_TOPIC_NEW" (some (.str "inst_1")) 1000 recJ1 (.num 1)

set_option maxRecDepth 200000 in
/-- The c1 fetch body parses to 101 object records and a bare number. -/
theorem c1_parse : json_loads c1Body =
    some (.arr (List.replicate 101 recJ1 ++ [JsonVal.num 5])) := rfl

set_option maxRecDepth 200000 in
/-- The c1 fetch body is neither empty after stripping nor "[]". -/
theorem c1_cond : ((pyStrip c1Body != "") && (c1Body != "[]")) = true := rfl

/-- Initialization inside the c1 poll succeeds and produces s0i. -/
theorem c1_init : initialize_consumer envC1.init s0 = (true, s0i, ⟨1, 1, 1⟩) := rfl

set_option maxRecDepth 200000 in
/-- C1: the history bound fails on this input.  One poll_messages call on
the freshly created consumer, whose fetch returns 101 appendable records
followed by a bare number, ends the call with 101 stored messages:
the membership test raises TypeError on the non-dict record, the outer
handler catches it after the 101 appends, and the trim that enforces
max_stored_messages (100) is skipped. -/
theorem c1_bound_violated :
    ((poll_messages "TEST_KAFKA_TOPIC_NEW" envC1 s0).2.1).consumed_messages.length = 101
    ∧ s0.max_stored_messages = 100 := by
  refine ⟨?_, rfl⟩
  have hinit := c1_init
  have hparse := c1_parse
  have hcond := c1_cond
  have hobj : ∀ e ∈ List.replicate 101 recJ1, e.isObj = true := by
    intro e he; rw [List.eq_of_mem_replicate he]; rfl
  have hf1 : processedOf "TEST_KAFKA_TOPIC_NEW" (some (.str "inst_1")) 1000 recJ1 =
      some pr1 := rfl
  have hdelta : List.filterMap
      (processedOf "TEST_KAFKA_TOPIC_NEW" (some (.str "inst_1")) 1000)
      (List.replicate 101 recJ1) = List.replicate 101 pr1 :=
    filterMap_replicate_some _ _ _ hf1 101
  have hs0 : s0.consumer_initialized = false := rfl
  unfold poll_messages
  simp only [hs0, Bool.false_eq_true, if_false]
  rw [hinit]
  dsimp only
  unfold poll_fetch
  dsimp only [envC1, s0i, s0, mkInitialState]
  simp only [hcond, eq_self_iff_true, if_true]
  rw [hparse]
  dsimp only [pyIter]
  rw [processRecords_obj_front _ _ _ _ _ _ _ hobj]
  rw [hdelta]
  simp only [List.nil_append]
  rw [show processRecords "TEST_KAFKA_TOPIC_NEW" (some (JsonVal.str "inst_1"))
      1000 [JsonVal.num 5] (List.replicate 101 pr1) (List.replicate 101 pr1) =
      (List.replicate 101 pr1, List.replicate 101 pr1, true) from rfl]
  simp

/-- A poll body of 101 records whose values are objects, so that all 101
are appended, the history is trimmed to 100, and the summary loop prints
without raising. -/
def c10Body : String :=
  "[" ++ String.intercalate "," (List.replicate 101 "\x7b\"value\":\x7b\"a\":1\x7d\x7d") ++ "]"

/-- Poll environment delivering c10Body on the records fetch. -/
def envC10 : PollEnv := { init := envInitOk, fetch := .ok c10Body, now := 1000 }

/-- The wire record \x7b"value": \x7b"a": 1\x7d\x7d. -/
def recJ10 : JsonVal := .obj [("value", .obj [("a", .num 1)])]

/-- Its processed form in the c10 run. -/
def pr10 : ProcessedRecord :=
  mkProcessedRecord "TEST_KAFKA_TOPIC_NEW" (some (.str "inst_1")) 1000 recJ10
    (.obj [("a", .num 1)])

set_option maxRecDepth 200000 in
/-- The c10 fetch body parses to 101 object records. -/
theorem c10_parse : json_loads c10Body =
    some (.arr (List.replicate 101 recJ10)) := rfl

set_option maxRecDepth 200000 in
/-- The c10 fetch body is neither empty after stripping nor "[]". -/
theorem c10_cond : ((pyStrip c10Body != "") && (c10Body != "[]")) = true := rfl

/-- Initialization inside the c10 poll succeeds and produces s0i. -/
theorem c10_init : initialize_consumer envC10.init s0 = (true, s0i, ⟨1, 1, 1⟩) := rfl

/-- C10: get_status reports as total_consumed the length of the stored
message list, for every state; and since that list is trimmed to
max_stored_messages, one poll from the fresh consumer that returns 101
messages reports total_consumed = 100, not the lifetime total 101. -/
theorem c10_total_consumed_capped :
    (∀ s : ConsumerState,
      ((get_status s).1).total_consumed = s.consumed_messages.length)
    ∧ (poll_messages "TEST_KAFKA_TOPIC_NEW" envC10 s0).1.length = 101
    ∧ ((get_status (poll_messages "TEST_KAFKA_TOPIC_NEW" envC10 s0).2.1).1).total_consumed = 100 := by
  have hinit := c10_init
  have hparse := c10_parse
  have hcond := c10_cond
  have hobj : ∀ e ∈ List.replicate 101 recJ10, e.isObj = true := by
    intro e he; rw [List.eq_of_mem_replicate he]; rfl
  have hf10 : processedOf "TEST_KAFKA_TOPIC_NEW" (some (.str "inst_1")) 1000 recJ10 =
      some pr10 := rfl
  have hdelta : List.filterMap
      (processedOf "TEST_KAFKA_TOPIC_NEW" (some (.str "inst_1")) 1000)
      (List.replicate 101 recJ10) = List.replicate 101 pr10 :=
    filterMap_replicate_some _ _ _ hf10 101
  have hall : (List.replicate 101 pr10).all (fun m => m.data.isObj) = true := by
    rw [List.all_eq_true]
    intro x hx
    rw [List.eq_of_mem_replicate hx]
    rfl
  have hs0 : s0.consumer_initialized = false := rfl
  refine ⟨fun _ => rfl, ?_, ?_⟩
  · unfold poll_messages
    simp only [hs0, Bool.false_eq_true, if_false]
    rw [hinit]
    dsimp only
    unfold poll_fetch
    dsimp only [envC10, s0i, s0, mkInitialState]
    simp only [hcond, eq_self_iff_true, if_true]
    rw [hparse]
    dsimp only [pyIter]
    rw [processRecords_obj _ _ _ _ _ _ hobj]
    rw [hdelta]
    simp only [List.nil_append]
    simp [hall, show pr10.data.isObj = true from rfl]
  · unfold poll_messages
    simp only [hs0, Bool.false_eq_true, if_false]
    rw [hinit]
    dsimp only
    unfold poll_fetch
    dsimp only [envC10, s0i, s0, mkInitialState]
    simp only [hcond, eq_self_iff_true, if_true]
    rw [hparse]
    dsimp only [pyIter]
    rw [processRecords_obj _ _ _ _ _ _ hobj]
    rw [hdelta]
    simp only [List.nil_append]
    simp [hall, get_status, show pr10.data.isObj = true from rfl]

/-- A poll body with a record lacking a value, a record whose string value
is not JSON, and a record whose value is a bare number. -/
def c7Body : String :=
  "[\x7b\"a\":1\x7d,\x7b\"value\":\"x\"\x7d,\x7b\"value\":5\x7d]"

/-- Poll environment delivering c7Body on the records fetch. -/
def envC7 : PollEnv := { init := envInitOk, fetch := .ok c7Body, now := 99 }

/-- C7 counterexample: the non-empty c7 poll response holds three records;
the claim would append all three processed records to the history and to
the returned list.  Instead the first record is skipped (no value key),
the second is skipped (its string value fails json.loads), the third is
appended to the history, and the returned list is empty because the
summary loop raises AttributeError on the non-dict decoded value 5. -/
theorem c7_counterexample :
    (poll_messages "TEST_KAFKA_TOPIC_NEW" envC7 s0i).1 = [] ∧
    ((poll_messages "TEST_KAFKA_TOPIC_NEW" envC7 s0i).2.1).consumed_messages.length = 1 :=
  ⟨rfl, rfl⟩

/-- C7 amended: in a non-empty poll response that parses to a list of
object records, exactly those records with a truthy value field whose wire
value decodes (json.loads for a string value, the value itself otherwise)
are appended, as processed records, to the in-memory history, which is
then trimmed to the bound; the others are skipped.  The same processed
records are returned, unless some decoded value is not a JSON object, in
which case the returned list is empty while the history keeps them. -/
theorem c7_amended (topic : String) (env : PollEnv) (s : ConsumerState)
    (body : String) (elems : List JsonVal)
    (hs : s.consumer_initialized = true)
    (hf : env.fetch = .ok body)
    (hne : ((pyStrip body != "") && (body != "[]")) = true)
    (hp : json_loads body = some (.arr elems))
    (hobj : ∀ e ∈ elems, e.isObj = true) :
    ((poll_messages topic env s).2.1).consumed_messages =
      (if (s.consumed_messages ++
            elems.filterMap (processedOf topic s.instance_id env.now)).length >
          s.max_stored_messages
       then (s.consumed_messages ++
            elems.filterMap (processedOf topic s.instance_id env.now)).drop
            ((s.consumed_messages ++
              elems.filterMap (processedOf topic s.instance_id env.now)).length -
              s.max_stored_messages)
       else s.consumed_messages ++
            elems.filterMap (processedOf topic s.instance_id env.now))
    ∧ (poll_messages topic env s).1 =
      (if (elems.filterMap (processedOf topic s.instance_id env.now)).all
            (fun m => m.data.isObj)
       then elems.filterMap (processedOf topic s.instance_id env.now)
       else []) := by
  unfold poll_messages
  simp only [hs, if_true]
  unfold poll_fetch
  rw [hf]
  dsimp only
  simp only [hne, eq_self_iff_true, if_true]
  rw [hp]
  dsimp only [pyIter]
  rw [processRecords_obj _ _ _ _ _ _ hobj]
  simp only [List.nil_append, Bool.false_eq_true, if_false]
  constructor
  · split <;> rfl
  · split <;> simp_all

/-- A single-record poll body with an object value. -/
def c7wBody : String := "[\x7b\"value\":\x7b\"b\":2\x7d\x7d]"

/-- The record of c7wBody as a JSON value. -/
def recW : JsonVal := .obj [("value", .obj [("b", .num 2)])]

/-- Poll environment delivering c7wBody on the records fetch. -/
def envC7w : PollEnv := { init := envInitOk, fetch := .ok c7wBody, now := 5 }

/-- C7 amended witness: the single decodable object-valued record is both
stored and returned. -/
theorem c7_amended_witness :
    (poll_messages "TEST_KAFKA_TOPIC_NEW" envC7w s0i).1 =
      (if ([recW].filterMap
            (processedOf "TEST_KAFKA_TOPIC_NEW" s0i.instance_id 5)).all
            (fun m => m.data.isObj)
       then [recW].filterMap (processedOf "TEST_KAFKA_TOPIC_NEW" s0i.instance_id 5)
       else []) :=
  (c7_amended "TEST_KAFKA_TOPIC_NEW" envC7w s0i c7wBody [recW] rfl rfl rfl rfl
    (fun e he => by rw [List.mem_singleton.mp he]; rfl)).2

/-- A POST environment with a well-formed empty JSON body and successful
publishes. -/
def postEnv0 : PostEnv :=
  { body := some "\x7b\x7d", publishResp := .ok "", plsqlPubResp := .ok "", now := 5 }

/-- A GET environment with successful upstream calls. -/
def getEnv0 : GetEnv :=
  { sendResp := .ok "", poll := { init := envInitOk, fetch := .ok "[]", now := 3 }
    initEnv := envInitOk, plsqlResp := .ok "\x7b\x7d", now := 5, nowMs := 5000 }

/-- C8 counterexample: a POST to an unrecognized path answers with an
error payload naming the path, not with the directory of known endpoints
(there is no endpoints field at all). -/
theorem c8_counterexample :
    (do_POST cfg0 postEnv0 "/nope").2 =
      .obj [("status", .str "error"),
            ("error", .str "Unknown POST endpoint: /nope")]
    ∧ jlookup (do_POST cfg0 postEnv0 "/nope").2 "endpoints" = none := ⟨rfl, rfl⟩

/-- C8 amended: a GET to a path outside the recognized set answers with
the directory of known endpoints; a POST to a path outside its recognized
set answers with an error payload naming the unknown endpoint. -/
theorem c8_amended (cfg : Config) (env : GetEnv) (penv : PostEnv)
    (pc : Option ConsumerState) (path : String)
    (hg : getRecognized path = false) (hp : postRecognized path = false) :
    (do_GET cfg env pc path).2.1 = defaultDirectory cfg
    ∧ (do_POST cfg penv path).2 =
        .obj [("status", .str "error"),
              ("error", .str ("Unknown POST endpoint: " ++ path))] := by
  simp only [getRecognized, Bool.or_eq_false_iff, decide_eq_false_iff_not] at hg
  obtain ⟨⟨⟨⟨⟨h1, h2⟩, h3⟩, h4⟩, h5⟩, h6⟩ := hg
  simp only [postRecognized, Bool.or_eq_false_iff, decide_eq_false_iff_not] at hp
  obtain ⟨p1, p2⟩ := hp
  constructor
  · unfold do_GET do_GET_body
    simp [h1, h2, h3, h4, h5, h6]
  · unfold do_POST do_POST_body
    simp [p1, p2]

/-- C8 amended witness: the unknown path answers with the endpoint
directory on GET and the unknown-endpoint error on POST. -/
theorem c8_amended_witness :
    (do_GET cfg0 getEnv0 (some s0i) "/nope").2.1 = defaultDirectory cfg0
    ∧ (do_POST cfg0 postEnv0 "/nope").2 =
        .obj [("status", .str "error"),
              ("error", .str ("Unknown POST endpoint: " ++ "/nope"))] :=
  c8_amended cfg0 getEnv0 postEnv0 (some s0i) "/nope" rfl rfl

/-- A poll environment whose records fetch raises. -/
def pollFailEnv : PollEnv := { init := envInitOk, fetch := .exn, now := 7 }

/-- A GET environment whose persistent-poll upstream fetch raises. -/
def getEnvC2 : GetEnv := { getEnv0 with poll := pollFailEnv }

/-- C2 counterexample: with the upstream records fetch raising, the
/consume-persistent response still carries status success (with an empty
message list), not a status indicating error; the HTTP status is 200. -/
theorem c2_counterexample :
    (do_GET cfg0 getEnvC2 (some s0i) "/consume-persistent").1 = 200
    ∧ jlookup (do_GET cfg0 getEnvC2 (some s0i) "/consume-persistent").2.1 "status" =
        some (.str "success") := ⟨rfl, rfl⟩

/-- C2 amended: every GET and POST request is answered with HTTP status
200.  Failures of the publish upstream in /send-message, of the ORDS call
in /consume-direct-plsql, and of the publish upstreams in /test-kafka and
/test-plsql-enqueue are converted into a JSON body whose status field is
error; a failure inside the persistent poll, however, is swallowed and
/consume-persistent reports status success with an empty message list. -/
theorem c2_amended (cfg : Config) (env : GetEnv) (penv : PostEnv)
    (pc : Option ConsumerState) (path : String) :
    (do_GET cfg env pc path).1 = 200
    ∧ (do_POST cfg penv path).1 = 200
    ∧ (startsWithStr path "/send-message/" = true → env.sendResp.failed = true →
        jlookup (do_GET cfg env pc path).2.1 "status" = some (.str "error"))
    ∧ (env.plsqlResp.failed = true →
        jlookup (do_GET cfg env pc "/consume-direct-plsql").2.1 "status" =
          some (.str "error"))
    ∧ (∀ c : ConsumerState,
        jlookup (do_GET cfg env (some c) "/consume-persistent").2.1 "status" =
          some (.str "success"))
    ∧ (penv.publishResp.failed = true →
        jlookup (do_POST cfg penv "/test-kafka").2 "status" = some (.str "error"))
    ∧ (penv.plsqlPubResp.failed = true →
        jlookup (do_POST cfg penv "/test-plsql-enqueue").2 "status" =
          some (.str "error")) := by
  refine ⟨rfl, rfl, ?_, ?_, ?_, ?_, ?_⟩
  · intro hsw hfail
    unfold do_GET do_GET_body
    simp only [hsw, eq_self_iff_true, if_true]
    unfold sendMessageData
    cases hr : env.sendResp with
    | ok b => rw [hr] at hfail; simp [HttpOutcome.failed] at hfail
    | httpError code b => rfl
    | exn => rfl
  · intro hfail
    have hdisp : do_GET cfg env pc "/consume-direct-plsql" =
        (200, consumeDirectPlsql cfg env, pc) := rfl
    rw [hdisp]
    unfold consumeDirectPlsql
    cases hr : env.plsqlResp with
    | ok b => rw [hr] at hfail; simp [HttpOutcome.failed] at hfail
    | httpError code b => rfl
    | exn => rfl
  · intro c
    have h1 : startsWithStr "/consume-persistent" "/send-message/" = false := rfl
    have h2 : "/consume-persistent" ≠ "/health" := by decide
    unfold do_GET do_GET_body
    simp only [h1, Bool.false_eq_true, if_false, h2, eq_self_iff_true, if_true]
    rcases hpoll : poll_messages cfg.topic env.poll c with ⟨msgs, c2, tr⟩
    simp [hpoll, jlookup]
  · intro hfail
    have hdisp : do_POST cfg penv "/test-kafka" = (200, testKafkaData cfg penv) := rfl
    rw [hdisp]
    unfold testKafkaData
    cases hb : penv.body with
    | none => rfl
    | some b =>
      dsimp only
      cases hjl : json_loads b with
      | none => rfl
      | some rd =>
        dsimp only
        cases hg : pyGetD rd "test_message" (.str "stateful_test") with
        | error e => rfl
        | ok tm =>
          dsimp only
          cases hr : penv.publishResp with
          | ok rb => rw [hr] at hfail; simp [HttpOutcome.failed] at hfail
          | httpError code rb => rfl
          | exn => rfl
  · intro hfail
    have hdisp : do_POST cfg penv "/test-plsql-enqueue" =
        (200, testPlsqlEnqueueData cfg penv) := rfl
    rw [hdisp]
    unfold testPlsqlEnqueueData
    cases hb : penv.body with
    | none => rfl
    | some b =>
      dsimp only
      cases hjl : json_loads b with
      | none => rfl
      | some rd =>
        dsimp only
        cases hg : pyGetD rd "test_message" (.str "plsql_enqueue_test") with
        | error e => rfl
        | ok tm =>
          dsimp only
          cases hr : penv.plsqlPubResp with
          | ok rb => rw [hr] at hfail; simp [HttpOutcome.failed] at hfail
          | httpError code rb => rfl
          | exn => rfl

/-- C2 amended witness: a raising ORDS upstream turns the
/consume-direct-plsql response into a status error payload. -/
theorem c2_amended_witness :
    jlookup (do_GET cfg0 { getEnv0 with plsqlResp := .exn } (some s0i)
      "/consume-direct-plsql").2.1 "status" = some (.str "error") :=
  (c2_amended cfg0 { getEnv0 with plsqlResp := .exn } postEnv0 (some s0i)
    "/x").2.2.2.1 rfl
